import Mathlib

/-!
Verification of the Credential & Session Gateway
(`src/app/services/user_service.py`) against its specification.

The service layer (`UserService.create`, `UserService.login`,
`UserService.is_superuser`, `UserService.delete_user`) is embedded
shallowly below.  Its collaborators — the User Store (repository), the
Secret Hasher, the two validators, the Token Issuer and the settings —
are not part of the source tree, so they are modelled from the spec's
external-interface contracts (spec §6): the store is a list of user
records with boolean existence checks and `find?`-style lookups, and the
hasher / validators / issuer are abstract function parameters collected
in an `Env` structure.
-/

namespace UserApp

/-- A user record of the User Store: unique id, unique username, unique
email, a hashed password and a superuser flag (spec §3). -/
structure User where
  id : Nat
  username : String
  email : String
  hashed_password : String
  is_superuser : Bool
deriving Repr, DecidableEq

/-- Registration input (schema `UserIn`): username, email, plaintext
password. -/
structure UserIn where
  username : String
  email : String
  password : String
deriving Repr, DecidableEq

/-- Login input (schema `UserLogin`): username + plaintext password. -/
structure UserLogin where
  username : String
  password : String
deriving Repr, DecidableEq

/-- Public fields of a created user (schema `UserInDBBase`): the hashed
password is structurally absent. -/
structure UserInDBBase where
  id : Nat
  username : String
  email : String
  is_superuser : Bool
deriving Repr, DecidableEq

/-- The externally observable shape of a `fastapi.HTTPException`:
status code, detail string, response headers. -/
structure HTTPException where
  status_code : Nat
  detail : String
  headers : List (String × String)
deriving Repr, DecidableEq

/-- Token response returned by `login`:
`{"access_token": ..., "token_type": "bearer"}`. -/
structure TokenResponse where
  access_token : String
  token_type : String
deriving Repr, DecidableEq

/-- Modelled from the spec: the User Store is the sequence of persisted
user rows (`repositories.user_repository` is not in the source tree). -/
abbrev Store := List User

/-- Modelled from the spec: `existsByEmail` — boolean existence check by
email address. -/
def user_exists_by_email (store : Store) (email : String) : Bool :=
  store.any (fun u => u.email == email)

/-- Modelled from the spec: `existsByUsername` — boolean existence check
by username. -/
def user_exists_by_username (store : Store) (username : String) : Bool :=
  store.any (fun u => u.username == username)

/-- Modelled from the spec: `existsById` — boolean existence check by id. -/
def user_exists_by_id (store : Store) (i : Nat) : Bool :=
  store.any (fun u => u.id == i)

/-- Modelled from the spec: `getByUsername` — absence reported as empty
(`none`), otherwise the first stored row with that username. -/
def get_user_by_username (store : Store) (username : String) : Option User :=
  store.find? (fun u => u.username == username)

/-- Modelled from the spec: `getById` — absence reported as empty
(`none`), otherwise the first stored row with that id. -/
def get_user_object_by_id (store : Store) (i : Nat) : Option User :=
  store.find? (fun u => u.id == i)

/-- Modelled from the spec: `create(data, hash)` — persists one new user
row built from the input data and the hash, and returns the created
user's public fields (excluding the hash).  The fresh id is supplied by
the store. -/
def repository_create (store : Store) (data : UserIn) (hashed : String)
    (newId : Nat) : UserInDBBase × Store :=
  let u : User :=
    { id := newId, username := data.username, email := data.email,
      hashed_password := hashed, is_superuser := false }
  ({ id := newId, username := data.username, email := data.email,
     is_superuser := false }, store ++ [u])

/-- Modelled from the spec: `delete(user)` — removes the given user's
row (identified by its id, the primary key) from the store. -/
def repository_delete_user (store : Store) (u : User) : Store :=
  store.eraseP (fun x => x.id == u.id)

/-- The external collaborators of the gateway (spec §6), absent from the
source tree: Secret Hasher (`get_password_hash` / `pwd_context.verify`),
the two validators (each either passes or fails with an exception
carrying a human-readable reason), the Token Issuer
(`create_access_token`, taking the subject claim and the expiry delta in
minutes) and the configured token lifetime. -/
structure Env where
  get_password_hash : String → String
  verify : String → String → Bool
  validate_password : String → Except HTTPException Unit
  validate_email : String → Except HTTPException Unit
  create_access_token : String → Nat → String
  ACCESS_TOKEN_EXPIRE_MINUTES : Nat

/-- The exception raised by `create` when the email is already
registered (`status.HTTP_400_BAD_REQUEST`). -/
def emailConflict (email : String) : HTTPException :=
  { status_code := 400,
    detail := "Email " ++ email ++ " already registered",
    headers := [] }

/-- The exception raised by `create` when the username is already
registered (`status.HTTP_400_BAD_REQUEST`). -/
def usernameConflict (username : String) : HTTPException :=
  { status_code := 400,
    detail := "Username " ++ username ++ " already registered",
    headers := [] }

/-- The single exception raised by `login` for bad credentials. -/
def unauthorizedError : HTTPException :=
  { status_code := 401,
    detail := "Incorrect username or password",
    headers := [("WWW-Authenticate", "Bearer")] }

/-- The exception raised by `is_superuser` and `delete_user` for an
unknown id (`status.HTTP_404_NOT_FOUND`). -/
def notFoundError (i : Nat) : HTTPException :=
  { status_code := 404,
    detail := "User " ++ toString i ++ " not found",
    headers := [] }

/-- `UserService.create`: email-uniqueness check, then
username-uniqueness check, then password validation, then email
validation, then hash and persist.  The pair returns the call's outcome
together with the store after the call. -/
def create (env : Env) (newId : Nat) (data : UserIn) (store : Store) :
    Except HTTPException UserInDBBase × Store :=
  if user_exists_by_email store data.email then
    (Except.error (emailConflict data.email), store)
  else if user_exists_by_username store data.username then
    (Except.error (usernameConflict data.username), store)
  else
    match env.validate_password data.password with
    | Except.error e => (Except.error e, store)
    | Except.ok _ =>
      match env.validate_email data.email with
      | Except.error e => (Except.error e, store)
      | Except.ok _ =>
        let hashed := env.get_password_hash data.password
        let r := repository_create store data hashed newId
        (Except.ok r.1, r.2)

/-- `UserService.login`: look the user up by username; if absent or the
password does not verify against the stored hash, raise the single
`unauthorizedError`; otherwise issue a token for the user's username
with the configured expiry and return the bearer token response. -/
def login (env : Env) (data : UserLogin) (store : Store) :
    Except HTTPException TokenResponse × Store :=
  match get_user_by_username store data.username with
  | none => (Except.error unauthorizedError, store)
  | some user =>
    if env.verify data.password user.hashed_password then
      (Except.ok
        { access_token :=
            env.create_access_token user.username env.ACCESS_TOKEN_EXPIRE_MINUTES,
          token_type := "bearer" }, store)
    else (Except.error unauthorizedError, store)

/-- `UserService.is_superuser`: 404 when no user with that id exists,
otherwise return the stored user's superuser flag. -/
def is_superuser (store : Store) (i : Nat) : Except HTTPException Bool × Store :=
  if user_exists_by_id store i then
    (Except.ok (((get_user_object_by_id store i).map User.is_superuser).getD false),
     store)
  else (Except.error (notFoundError i), store)

/-- `UserService.delete_user`: 404 when no user with that id exists,
otherwise fetch the user object and delete its row, returning `true`. -/
def delete_user (store : Store) (i : Nat) : Except HTTPException Bool × Store :=
  if user_exists_by_id store i then
    match get_user_object_by_id store i with
    | some u => (Except.ok true, repository_delete_user store u)
    | none => (Except.ok true, store)
  else (Except.error (notFoundError i), store)

/-! ### Helper lemmas about the modelled store -/

/-- An `any` existence check is the `isSome` of the corresponding
`find?` lookup. -/
theorem any_eq_isSome_find? (l : List User) (p : User → Bool) :
    l.any p = (l.find? p).isSome := by
  induction l with
  | nil => rfl
  | cons a t ih => cases h : p a <;> simp [List.find?_cons, h, ih]

/-- A failed boolean existence check means the lookup is empty. -/
theorem find?_eq_none_of_any_false (l : List User) (p : User → Bool)
    (h : l.any p = false) : l.find? p = none := by
  rw [any_eq_isSome_find?] at h
  cases hf : l.find? p with
  | none => rfl
  | some a => rw [hf] at h; simp at h

/-- A passed boolean existence check means the lookup finds a row. -/
theorem find?_isSome_of_any (l : List User) (p : User → Bool)
    (h : l.any p = true) : ∃ a, l.find? p = some a := by
  rw [any_eq_isSome_find?] at h
  exact Option.isSome_iff_exists.mp h

/-- A row found by username has that username. -/
theorem username_of_get (s : Store) (n : String) (u : User)
    (h : get_user_by_username s n = some u) : u.username = n := by
  unfold get_user_by_username at h
  have hb := List.find?_some h
  simpa using hb

/-- When the existence check by id passes, `getById` returns a row with
that id. -/
theorem get_user_object_by_id_of_exists (s : Store) (i : Nat)
    (h : user_exists_by_id s i = true) :
    ∃ u, get_user_object_by_id s i = some u ∧ u.id = i := by
  unfold user_exists_by_id at h
  obtain ⟨u, hu⟩ := find?_isSome_of_any s (fun x => x.id == i) h
  refine ⟨u, hu, ?_⟩
  have hb := List.find?_some hu
  simpa using hb

/-- When at most one element satisfies `p` (here: ids are pairwise
distinct), erasing the first match is the same as filtering every match
out. -/
theorem eraseP_eq_filter_of_unique (p : User → Bool) (l : List User)
    (h : l.Pairwise (fun a b => ¬(p a = true ∧ p b = true))) :
    l.eraseP p = l.filter (fun a => !(p a)) := by
  induction l with
  | nil => rfl
  | cons a t ih =>
    obtain ⟨ha, ht⟩ := List.pairwise_cons.mp h
    cases hp : p a with
    | false => simp [List.eraseP_cons, List.filter_cons, hp, ih ht]
    | true =>
      simp [List.eraseP_cons, List.filter_cons, hp]
      symm
      apply List.filter_eq_self.mpr
      intro b hb
      cases hpb : p b with
      | false => simp
      | true => exact absurd ⟨hp, hpb⟩ (ha b hb)

/-! ### Concrete collaborators for evaluating the model -/

/-- A concrete store row used to evaluate the operations. -/
def testUser : User :=
  { id := 1, username := "alice", email := "a@x.com",
    hashed_password := "h:pw", is_superuser := true }

/-- A concrete, well-behaved environment: the hasher prefixes the
plaintext, verification recomputes the hash, both validators accept
everything, and the issuer concatenates subject and expiry. -/
def envTest : Env :=
  { get_password_hash := fun p => "h:" ++ p,
    verify := fun p d => d == "h:" ++ p,
    validate_password := fun _ => Except.ok (),
    validate_email := fun _ => Except.ok (),
    create_access_token := fun sub minutes => sub ++ ":" ++ toString minutes,
    ACCESS_TOKEN_EXPIRE_MINUTES := 30 }

/-- The reason a concrete failing password validator reports. -/
def weakPasswordError : HTTPException :=
  { status_code := 422, detail := "Password too weak", headers := [] }

/-- `envTest` with a password validator that rejects everything. -/
def envWeakPwd : Env :=
  { envTest with validate_password := fun _ => Except.error weakPasswordError }

/-! ### Claim theorems -/

/-- C1: `login` fails with the one fixed `unauthorizedError` — status
401, detail "Incorrect username or password", header
`WWW-Authenticate: Bearer` — both when no user with the given username
exists and when the user exists but password verification against the
stored hash fails; since both cases produce the identical exception
value, a caller cannot distinguish a nonexistent username from a wrong
password. -/
theorem login_unauthorized_indistinguishable (env : Env) (store : Store)
    (d : UserLogin)
    (h : get_user_by_username store d.username = none ∨
      ∃ u, get_user_by_username store d.username = some u ∧
        env.verify d.password u.hashed_password = false) :
    (login env d store).1 = Except.error unauthorizedError := by
  rcases h with h | ⟨u, hu, hv⟩
  · simp [login, h]
  · simp [login, hu, hv]

/-- C1 witness: the unknown-username case and the wrong-password case at
a concrete store evaluate to the same error. -/
theorem login_unauthorized_indistinguishable_witness :
    (login envTest { username := "bob", password := "pw" } [testUser]).1 =
      Except.error unauthorizedError ∧
    (login envTest { username := "alice", password := "wrong" } [testUser]).1 =
      Except.error unauthorizedError :=
  ⟨login_unauthorized_indistinguishable envTest [testUser]
      { username := "bob", password := "pw" } (Or.inl (by decide)),
   login_unauthorized_indistinguishable envTest [testUser]
      { username := "alice", password := "wrong" }
      (Or.inr ⟨testUser, by decide, by decide⟩)⟩

/-- C2: `create` reports the email conflict whenever the email is
already registered — regardless of the username — and reports the
username conflict only when the email is fresh and the username is
taken; both leave the store unchanged.  Hence when both are taken, the
email conflict wins: the email check comes first. -/
theorem create_conflict_checks_email_before_username (env : Env)
    (newId : Nat) (data : UserIn) (store : Store) :
    (user_exists_by_email store data.email = true →
      create env newId data store =
        (Except.error (emailConflict data.email), store)) ∧
    (user_exists_by_email store data.email = false →
      user_exists_by_username store data.username = true →
      create env newId data store =
        (Except.error (usernameConflict data.username), store)) := by
  constructor
  · intro h; simp [create, h]
  · intro h1 h2; simp [create, h1, h2]

/-- C2 witness: with both the email and the username of `testUser`
taken, the reported conflict is the email conflict; with a fresh email
and taken username, the username conflict. -/
theorem create_conflict_checks_email_before_username_witness :
    create envTest 2 { username := "alice", email := "a@x.com", password := "pw9" }
        [testUser] = (Except.error (emailConflict "a@x.com"), [testUser]) ∧
    create envTest 2 { username := "alice", email := "b@x.com", password := "pw9" }
        [testUser] = (Except.error (usernameConflict "alice"), [testUser]) :=
  ⟨(create_conflict_checks_email_before_username envTest 2
      { username := "alice", email := "a@x.com", password := "pw9" } [testUser]).1
      (by decide),
   (create_conflict_checks_email_before_username envTest 2
      { username := "alice", email := "b@x.com", password := "pw9" } [testUser]).2
      (by decide) (by decide)⟩

/-- C3: when the email and the username are fresh, a validation failure
(password validator first, else email validator) makes `create` fail
with exactly the validator's exception and leaves the store unchanged:
no row is created. -/
theorem create_invalid_input_leaves_store_unchanged (env : Env)
    (newId : Nat) (data : UserIn) (store : Store)
    (he : user_exists_by_email store data.email = false)
    (hu : user_exists_by_username store data.username = false) :
    (∀ e, env.validate_password data.password = Except.error e →
      create env newId data store = (Except.error e, store)) ∧
    (∀ e, env.validate_password data.password = Except.ok () →
      env.validate_email data.email = Except.error e →
      create env newId data store = (Except.error e, store)) := by
  constructor
  · intro e hp; simp [create, he, hu, hp]
  · intro e hp hm; simp [create, he, hu, hp, hm]

/-- C3 witness: under a password validator that rejects everything,
registering a fresh user fails with the validator's exception and the
store is unchanged. -/
theorem create_invalid_input_leaves_store_unchanged_witness :
    create envWeakPwd 2 { username := "bob", email := "b@x.com", password := "123" }
        [testUser] = (Except.error weakPasswordError, [testUser]) :=
  (create_invalid_input_leaves_store_unchanged envWeakPwd 2
      { username := "bob", email := "b@x.com", password := "123" } [testUser]
      (by decide) (by decide)).1 weakPasswordError rfl

/-- C4: when both uniqueness checks and both validators pass, `create`
succeeds, hashes the plaintext password, appends exactly one new row
built from the input data and that hash, and returns the created user's
public fields — the returned `UserInDBBase` value has no password-hash
component. -/
theorem create_success_persists_hashed (env : Env) (newId : Nat)
    (data : UserIn) (store : Store)
    (he : user_exists_by_email store data.email = false)
    (hu : user_exists_by_username store data.username = false)
    (hp : env.validate_password data.password = Except.ok ())
    (hm : env.validate_email data.email = Except.ok ()) :
    create env newId data store =
      (Except.ok { id := newId, username := data.username,
                   email := data.email, is_superuser := false },
       store ++ [{ id := newId, username := data.username,
                   email := data.email,
                   hashed_password := env.get_password_hash data.password,
                   is_superuser := false }]) := by
  simp [create, he, hu, hp, hm, repository_create]

/-- C4 witness: a concrete fresh registration appends exactly the hashed
row and returns the public fields. -/
theorem create_success_persists_hashed_witness :
    create envTest 2 { username := "bob", email := "b@x.com", password := "pw2" }
        [testUser] =
      (Except.ok { id := 2, username := "bob", email := "b@x.com",
                   is_superuser := false },
       [testUser,
        { id := 2, username := "bob", email := "b@x.com",
          hashed_password := "h:pw2", is_superuser := false }]) :=
  create_success_persists_hashed envTest 2
    { username := "bob", email := "b@x.com", password := "pw2" } [testUser]
    (by decide) (by decide) rfl rfl

/-- C5: when the username is found and the password verifies against the
stored hash, `login` returns a bearer token response whose token the
issuer built from the requested username as subject and the configured
`ACCESS_TOKEN_EXPIRE_MINUTES` as expiry delta, with
`token_type = "bearer"`. -/
theorem login_success_issues_token (env : Env) (store : Store)
    (d : UserLogin) (u : User)
    (hu : get_user_by_username store d.username = some u)
    (hv : env.verify d.password u.hashed_password = true) :
    (login env d store).1 =
      Except.ok { access_token := env.create_access_token d.username env.ACCESS_TOKEN_EXPIRE_MINUTES, token_type := "bearer" } := by
  have hn : u.username = d.username := username_of_get store d.username u hu
  simp [login, hu, hv, hn]

/-- C5 witness: logging in as the stored user with the right plaintext
yields the issuer's token for subject "alice" and the 30-minute expiry. -/
theorem login_success_issues_token_witness :
    (login envTest { username := "alice", password := "pw" } [testUser]).1 =
      Except.ok { access_token := "alice:30", token_type := "bearer" } :=
  login_success_issues_token envTest [testUser]
    { username := "alice", password := "pw" } testUser (by decide) (by decide)

/-- C6: whenever `create` succeeds for some input, a `login` with the
same username and plaintext password on the resulting store succeeds —
it does not produce the unauthorized error — under the hasher contract
that verification accepts a plaintext against its own hash. -/
theorem register_then_login_succeeds (env : Env) (newId : Nat)
    (data : UserIn) (store : Store) (r : UserInDBBase) (store2 : Store)
    (hV : ∀ p, env.verify p (env.get_password_hash p) = true)
    (hc : create env newId data store = (Except.ok r, store2)) :
    ∃ t, (login env { username := data.username, password := data.password }
      store2).1 = Except.ok t := by
  unfold create at hc
  cases he : user_exists_by_email store data.email with
  | true => rw [he] at hc; simp at hc
  | false =>
  rw [he] at hc
  cases hu : user_exists_by_username store data.username with
  | true => rw [hu] at hc; simp at hc
  | false =>
  rw [hu] at hc
  simp at hc
  cases hp : env.validate_password data.password with
  | error e => rw [hp] at hc; simp at hc
  | ok v =>
  rw [hp] at hc
  cases hm : env.validate_email data.email with
  | error e => rw [hm] at hc; simp at hc
  | ok w =>
  rw [hm] at hc
  simp [repository_create] at hc
  obtain ⟨-, hs⟩ := hc
  have hnone : store.find? (fun x => x.username == data.username) = none :=
    find?_eq_none_of_any_false store _ hu
  have hget : get_user_by_username store2 data.username =
      some { id := newId, username := data.username, email := data.email,
             hashed_password := env.get_password_hash data.password,
             is_superuser := false } := by
    rw [← hs]
    unfold get_user_by_username
    rw [List.find?_append, hnone]
    simp
  refine ⟨{ access_token := env.create_access_token data.username env.ACCESS_TOKEN_EXPIRE_MINUTES, token_type := "bearer" }, ?_⟩
  simp [login, hget, hV data.password]

/-- C6 witness: a concrete successful registration followed by a login
with the same credentials succeeds. -/
theorem register_then_login_succeeds_witness :
    ∃ t, (login envTest { username := "bob", password := "pw2" }
      [testUser,
       { id := 2, username := "bob", email := "b@x.com",
         hashed_password := "h:pw2", is_superuser := false }]).1 =
      Except.ok t :=
  register_then_login_succeeds envTest 2
    { username := "bob", email := "b@x.com", password := "pw2" } [testUser]
    { id := 2, username := "bob", email := "b@x.com", is_superuser := false }
    [testUser,
     { id := 2, username := "bob", email := "b@x.com",
       hashed_password := "h:pw2", is_superuser := false }]
    (fun p => by simp [envTest]) rfl

/-- C7: `is_superuser` fails with the not-found exception exactly when
no user with that id exists; otherwise it returns the stored user's
superuser flag; and the store after the call is the store before it. -/
theorem is_superuser_spec (store : Store) (i : Nat) :
    ((is_superuser store i).1 = Except.error (notFoundError i) ↔
      user_exists_by_id store i = false) ∧
    (user_exists_by_id store i = true →
      ∃ u, get_user_object_by_id store i = some u ∧
        (is_superuser store i).1 = Except.ok u.is_superuser) ∧
    (is_superuser store i).2 = store := by
  refine ⟨?_, ?_, ?_⟩
  · cases h : user_exists_by_id store i <;> simp [is_superuser, h]
  · intro h
    obtain ⟨u, hu, -⟩ := get_user_object_by_id_of_exists store i h
    exact ⟨u, hu, by simp [is_superuser, h, hu]⟩
  · cases h : user_exists_by_id store i <;> simp [is_superuser, h]

/-- C7 witness: on the concrete store, the stored id returns the stored
flag and an unknown id yields the not-found error. -/
theorem is_superuser_spec_witness :
    (∃ u, get_user_object_by_id [testUser] 1 = some u ∧
      (is_superuser [testUser] 1).1 = Except.ok u.is_superuser) ∧
    ((is_superuser [testUser] 2).1 = Except.error (notFoundError 2) ↔
      user_exists_by_id [testUser] 2 = false) :=
  ⟨(is_superuser_spec [testUser] 1).2.1 (by decide),
   (is_superuser_spec [testUser] 2).1⟩

/-- C8: under pairwise-distinct ids (the store's uniqueness invariant),
`delete_user` fails with the not-found exception exactly when no user
with that id exists; otherwise it returns success and the resulting
store keeps precisely the rows whose id differs — the target row is
removed and every other row is unchanged. -/
theorem delete_user_spec (store : Store) (i : Nat)
    (huniq : store.Pairwise (fun a b => a.id ≠ b.id)) :
    ((delete_user store i).1 = Except.error (notFoundError i) ↔
      user_exists_by_id store i = false) ∧
    (user_exists_by_id store i = true →
      (delete_user store i).1 = Except.ok true ∧
      (delete_user store i).2 = store.filter (fun x => !(x.id == i))) := by
  constructor
  · cases h : user_exists_by_id store i with
    | false => simp [delete_user, h]
    | true =>
      obtain ⟨u, hu, -⟩ := get_user_object_by_id_of_exists store i h
      simp [delete_user, h, hu]
  · intro h
    obtain ⟨u, hu, hui⟩ := get_user_object_by_id_of_exists store i h
    refine ⟨by simp [delete_user, h, hu], ?_⟩
    have hfilter : store.eraseP (fun x => x.id == u.id) =
        store.filter (fun x => !(x.id == u.id)) := by
      apply eraseP_eq_filter_of_unique
      apply huniq.imp
      intro a b hab hco
      obtain ⟨ha, hb⟩ := hco
      simp at ha hb
      exact hab (ha.trans hb.symm)
    rw [hui] at hfilter
    simp [delete_user, h, hu, repository_delete_user, hui, hfilter]

/-- C8 witness: deleting the stored id on the concrete one-row store
returns success and leaves exactly the rows with a different id. -/
theorem delete_user_spec_witness :
    (delete_user [testUser] 1).1 = Except.ok true ∧
    (delete_user [testUser] 1).2 = [testUser].filter (fun x => !(x.id == 1)) :=
  (delete_user_spec [testUser] 1 (by decide)).2 (by decide)

/-- C9: a uniqueness conflict takes precedence over input validation —
when the email or the username is already taken, the outcome of `create`
does not depend on the environment at all (so neither validator, nor the
hasher, is consulted) and is a conflict error with status 400. -/
theorem create_conflict_skips_validation (env1 env2 : Env)
    (newId1 newId2 : Nat) (data : UserIn) (store : Store)
    (h : user_exists_by_email store data.email = true ∨
      user_exists_by_username store data.username = true) :
    create env1 newId1 data store = create env2 newId2 data store ∧
    ∃ e, (create env1 newId1 data store).1 = Except.error e ∧
      e.status_code = 400 := by
  rcases h with h | h
  · exact ⟨by simp [create, h],
      emailConflict data.email, by simp [create, h], rfl⟩
  · cases he : user_exists_by_email store data.email with
    | false =>
      exact ⟨by simp [create, he, h],
        usernameConflict data.username, by simp [create, he, h], rfl⟩
    | true =>
      exact ⟨by simp [create, he],
        emailConflict data.email, by simp [create, he], rfl⟩

/-- C9 witness: with a taken email and a password validator that rejects
everything, `create` still reports the conflict, identically to an
environment whose validators accept. -/
theorem create_conflict_skips_validation_witness :
    create envWeakPwd 3 { username := "zoe", email := "a@x.com", password := "123" }
        [testUser] =
      create envTest 4 { username := "zoe", email := "a@x.com", password := "123" }
        [testUser] ∧
    ∃ e, (create envWeakPwd 3
        { username := "zoe", email := "a@x.com", password := "123" }
        [testUser]).1 = Except.error e ∧ e.status_code = 400 :=
  create_conflict_skips_validation envWeakPwd envTest 3 4
    { username := "zoe", email := "a@x.com", password := "123" } [testUser]
    (Or.inl (by decide))

/-- C10: `login` and `is_superuser` never mutate the User Store — for
every input, whether they succeed or fail, the store after the call
equals the store before it. -/
theorem login_is_superuser_do_not_mutate (env : Env) (d : UserLogin)
    (store : Store) (i : Nat) :
    (login env d store).2 = store ∧ (is_superuser store i).2 = store := by
  constructor
  · cases h : get_user_by_username store d.username with
    | none => simp [login, h]
    | some u => cases hv : env.verify d.password u.hashed_password <;>
        simp [login, h, hv]
  · cases h : user_exists_by_id store i <;> simp [is_superuser, h]

end UserApp
